/-
Verification of the hf-tech-daily aggregation pipeline.

Shallow embedding of the Python sources `scraper.py`, `generate_html.py`
and `visualizer.py`.  Machine integers are modelled as `Nat`; Python
dictionaries keyed by strings are modelled as association lists in
insertion order (Python dicts preserve insertion order); Python `sorted`
with `reverse=True` is modelled by the stable `List.mergeSort` with the
reversed comparison; Python float formatting (`:.1f`, `:.0f`, `:.2f`) is
modelled by exact round-half-even on rationals expressed with integer
arithmetic.
-/
import Mathlib

set_option maxHeartbeats 1000000
set_option maxRecDepth 100000

/-- `TECH_CATEGORIES` from scraper.py: ordered mapping of technology
category name to its pipeline tags (Python dicts preserve insertion order). -/
def TECH_CATEGORIES : List (String × List String) := [
  ("语言模型", ["text-generation", "text2text-generation", "conversational"]),
  ("多模态模型", ["image-text-to-text", "any-to-any", "visual-question-answering"]),
  ("图像生成", ["text-to-image", "image-to-image", "unconditional-image-generation"]),
  ("视频生成", ["text-to-video", "image-to-video", "video-to-video"]),
  ("语音合成", ["text-to-speech", "text-to-audio"]),
  ("语音识别", ["automatic-speech-recognition", "audio-to-audio"]),
  ("文档理解", ["image-to-text", "document-question-answering"]),
  ("嵌入模型", ["feature-extraction", "sentence-similarity"]),
  ("图像理解", ["image-classification", "object-detection", "image-segmentation"]),
  ("其他", [])]

/-- `get_size_category` from scraper.py: bucket a parameter count.
`None` maps to "未知"; otherwise the first bound in the if/elif chain wins.
The Python float bounds `1e9`, `7e9`, `32e9`, `128e9` are exact integers. -/
def get_size_category : Option Nat → String
  | none => "未知"
  | some num_params =>
    if num_params < 10 ^ 9 then "微型 (<1B)"
    else if num_params < 7 * 10 ^ 9 then "小型 (1B-7B)"
    else if num_params < 32 * 10 ^ 9 then "中型 (7B-32B)"
    else if num_params < 128 * 10 ^ 9 then "大型 (32B-128B)"
    else "超大型 (>128B)"

/-- `get_tech_category` from scraper.py: first category of `TECH_CATEGORIES`
whose tag list contains the pipeline tag, otherwise "其他"; `None` maps to
"其他". -/
def get_tech_category : Option String → String
  | none => "其他"
  | some pipeline_tag =>
    match TECH_CATEGORIES.find? (fun p => decide (pipeline_tag ∈ p.2)) with
    | some p => p.1
    | none => "其他"

/-- One fetched model record, as built by `fetch_trending_models` /
`fetch_models_by_sort` in scraper.py.  `tech_category` / `size_category`
are the derived fields added by `enrich_model_data` (absent before
enrichment, hence `Option`; dictionary reads with a default are `getD`). -/
structure ModelRecord where
  id : String := ""
  author : Option String := none
  pipeline_tag : Option String := none
  downloads : Nat := 0
  likes : Nat := 0
  num_parameters : Option Nat := none
  tags : List String := []
  tech_keywords : List String := []
  tech_category : Option String := none
  size_category : Option String := none
deriving Repr, DecidableEq

/-- `enrich_model_data` from scraper.py: add the two derived fields. -/
def enrich_model_data (models : List ModelRecord) : List ModelRecord :=
  models.map (fun m =>
    { m with
      tech_category := some (get_tech_category m.pipeline_tag),
      size_category := some (get_size_category m.num_parameters) })

/-- C7: the size-bucket classification is mutually exclusive and exhaustive:
each record gets exactly one label of the fixed set, determined by
`numParameters` against the bounds <1e9, <7e9, <32e9, <128e9, else huge,
and an absent parameter count always classifies as "未知" ("unknown"). -/
theorem size_category_exclusive_exhaustive :
    (get_size_category none = "未知") ∧
    (∀ p : Option Nat, get_size_category p ∈
      ["未知", "微型 (<1B)", "小型 (1B-7B)", "中型 (7B-32B)",
       "大型 (32B-128B)", "超大型 (>128B)"]) ∧
    (∀ n : Nat,
      (get_size_category (some n) = "微型 (<1B)" ↔ n < 10 ^ 9) ∧
      (get_size_category (some n) = "小型 (1B-7B)" ↔ 10 ^ 9 ≤ n ∧ n < 7 * 10 ^ 9) ∧
      (get_size_category (some n) = "中型 (7B-32B)" ↔ 7 * 10 ^ 9 ≤ n ∧ n < 32 * 10 ^ 9) ∧
      (get_size_category (some n) = "大型 (32B-128B)" ↔ 32 * 10 ^ 9 ≤ n ∧ n < 128 * 10 ^ 9) ∧
      (get_size_category (some n) = "超大型 (>128B)" ↔ 128 * 10 ^ 9 ≤ n) ∧
      get_size_category (some n) ≠ "未知") := by
  refine ⟨rfl, ?_, ?_⟩
  · intro p
    rcases p with _ | n
    · simp [get_size_category]
    · simp only [get_size_category]
      split_ifs <;> simp
  · intro n
    simp only [get_size_category]
    split_ifs with h1 h2 h3 h4 <;>
      refine ⟨?_, ?_, ?_, ?_, ?_, by decide⟩ <;>
      constructor <;>
      intro h <;>
      first
        | rfl
        | omega
        | (exact absurd h (by decide))

/-- C8: technology-category classification: an absent tag and an unmapped
tag both classify as "其他" ("Other"); a tag contained in some category's
tag set classifies as that category (the category tag sets of
`TECH_CATEGORIES` are pairwise disjoint, so the first match in enumeration
order is the unique match and each tag maps to exactly one category). -/
theorem tech_category_first_match :
    (get_tech_category none = "其他") ∧
    (∀ t : String, (∀ c ∈ TECH_CATEGORIES, t ∉ c.2) →
      get_tech_category (some t) = "其他") ∧
    (∀ c₁ ∈ TECH_CATEGORIES, ∀ c₂ ∈ TECH_CATEGORIES,
      ∀ t ∈ c₁.2, t ∈ c₂.2 → c₁ = c₂) ∧
    (∀ t : String, ∀ c ∈ TECH_CATEGORIES, t ∈ c.2 →
      get_tech_category (some t) = c.1) := by
  have hdisj : ∀ c₁ ∈ TECH_CATEGORIES, ∀ c₂ ∈ TECH_CATEGORIES,
      ∀ t ∈ c₁.2, t ∈ c₂.2 → c₁ = c₂ := by decide
  refine ⟨rfl, ?_, hdisj, ?_⟩
  · intro t ht
    have hnone : TECH_CATEGORIES.find? (fun p => decide (t ∈ p.2)) = none := by
      apply List.find?_eq_none.2
      intro c hc
      simpa using ht c hc
    simp [get_tech_category, hnone]
  · intro t c hc htc
    have hsome : (TECH_CATEGORIES.find? (fun p => decide (t ∈ p.2))).isSome := by
      apply List.find?_isSome.2
      exact ⟨c, hc, by simpa using htc⟩
    obtain ⟨c', hc'⟩ := Option.isSome_iff_exists.1 hsome
    have hmem : c' ∈ TECH_CATEGORIES := List.mem_of_find?_eq_some hc'
    have hpred : t ∈ c'.2 := by simpa using List.find?_some hc'
    have : c' = c := hdisj c' hmem c hc t hpred htc
    simp [get_tech_category, hc', this]

/-- The dedup-by-id loop shared by `fetch_models_by_category` (scraper.py)
and `generate_bubble_chart` (visualizer.py): walk the list keeping a set of
seen ids, appending a record only when its id has not been seen. -/
def dedupGo (seen : List String) : List ModelRecord → List ModelRecord
  | [] => []
  | m :: rest =>
    if m.id ∈ seen then dedupGo seen rest
    else m :: dedupGo (m.id :: seen) rest

/-- `merge`: deduplicate a concatenation of fetched lists by `id`,
first-seen wins (the `seen_ids` / `unique_models` loop in the source). -/
def dedup_by_id (models : List ModelRecord) : List ModelRecord :=
  dedupGo [] models

lemma dedupGo_id_not_seen (seen : List String) (l : List ModelRecord) :
    ∀ m ∈ dedupGo seen l, m.id ∉ seen := by
  induction l generalizing seen with
  | nil => simp [dedupGo]
  | cons a rest ih =>
    intro m hm
    by_cases h : a.id ∈ seen
    · rw [dedupGo, if_pos h] at hm
      exact ih seen m hm
    · rw [dedupGo, if_neg h] at hm
      rcases List.mem_cons.1 hm with rfl | hm'
      · exact h
      · have := ih (a.id :: seen) m hm'
        exact fun hc => this (List.mem_cons_of_mem _ hc)

lemma dedupGo_nodup (seen : List String) (l : List ModelRecord) :
    ((dedupGo seen l).map (fun m => m.id)).Nodup := by
  induction l generalizing seen with
  | nil => simp [dedupGo]
  | cons a rest ih =>
    simp only [dedupGo]
    split
    · exact ih seen
    · simp only [List.map_cons, List.nodup_cons]
      refine ⟨?_, ih (a.id :: seen)⟩
      intro hmem
      obtain ⟨m, hm, hid⟩ := List.mem_map.1 hmem
      exact (dedupGo_id_not_seen _ _ m hm) (by simp [hid])

lemma dedupGo_sublist (seen : List String) (l : List ModelRecord) :
    (dedupGo seen l).Sublist l := by
  induction l generalizing seen with
  | nil => simp [dedupGo]
  | cons a rest ih =>
    simp only [dedupGo]
    split
    · exact (ih seen).cons a
    · exact (ih (a.id :: seen)).cons₂ a

lemma dedupGo_find? (seen : List String) (l : List ModelRecord) (i : String)
    (hi : i ∉ seen) :
    (dedupGo seen l).find? (fun m => m.id == i) = l.find? (fun m => m.id == i) := by
  induction l generalizing seen with
  | nil => simp [dedupGo]
  | cons a rest ih =>
    simp only [dedupGo]
    split
    · rename_i hseen
      have hne : (a.id == i) = false := by
        simp only [beq_eq_false_iff_ne, ne_eq]
        intro h; exact hi (h ▸ hseen)
      rw [List.find?_cons, hne]
      exact ih seen hi
    · rw [List.find?_cons, List.find?_cons]
      by_cases h : a.id = i
      · simp [h]
      · have hne : (a.id == i) = false := by simp [h]
        rw [hne]
        refine ih (a.id :: seen) ?_
        intro hmem
        rcases List.mem_cons.1 hmem with h' | hc
        · exact h h'.symm
        · exact hi hc

/-- C3: `merge` (dedup by id) never produces duplicate ids; for any id the
surviving record is the first-seen one with its fields unchanged (`find?`
over the output equals `find?` over the input, which returns the first
matching record intact); and the output is a sublist of the input, hence
preserves first-seen relative order. -/
theorem merge_dedup_first_seen_wins (models : List ModelRecord) :
    ((dedup_by_id models).map (fun m => m.id)).Nodup ∧
    (∀ i : String,
      (dedup_by_id models).find? (fun m => m.id == i) =
        models.find? (fun m => m.id == i)) ∧
    (dedup_by_id models).Sublist models := by
  refine ⟨dedupGo_nodup [] models, ?_, dedupGo_sublist [] models⟩
  intro i
  exact dedupGo_find? [] models i (by simp)

/-- `KNOWN_TECH_KEYWORDS` from scraper.py: the fixed keyword vocabulary. -/
def KNOWN_TECH_KEYWORDS : List String := [
  "Qwen", "DeepSeek", "LLaMA", "Llama", "Mistral", "Gemma", "Phi", "Yi", "InternLM",
  "ChatGLM", "Baichuan", "BLOOM", "Falcon", "MPT", "OPT", "Pythia", "StableLM",
  "Vicuna", "Alpaca", "WizardLM", "OpenChat", "Zephyr", "Neural", "Orca",
  "Diffusion", "SDXL", "Stable", "FLUX", "Kandinsky", "PixArt", "Playground",
  "DALL-E", "Midjourney", "ControlNet", "IP-Adapter", "LoRA", "LCM",
  "CLIP", "BLIP", "LLaVA", "CogVLM", "Qwen-VL", "InternVL", "MiniGPT",
  "Fuyu", "Idefics", "PaliGemma", "Florence",
  "Whisper", "Wav2Vec", "HuBERT", "SpeechT5", "VITS", "Bark", "TTS",
  "Coqui", "XTTS", "MMS", "SeamlessM4T",
  "BERT", "RoBERTa", "T5", "GPT", "GPT-2", "XLNet", "ELECTRA", "DeBERTa",
  "DistilBERT", "ALBERT", "Longformer", "BigBird",
  "ViT", "DINO", "SAM", "YOLO", "ResNet", "ConvNeXt", "Swin", "BEiT",
  "DeiT", "EfficientNet", "MobileNet", "SegFormer", "Mask2Former",
  "Embedding", "Reranker", "BGE", "E5", "GTE", "Jina", "Cohere",
  "Sentence", "Transformer", "Mamba", "RWKV", "RetNet",
  "OpenAI", "Anthropic", "Google", "Meta", "Microsoft", "NVIDIA",
  "Alibaba", "Tencent", "Baidu", "ByteDance", "01-ai", "Colossal"]

/-- Substring test on character lists (Python `in` on strings /
`re.search` of an escaped pattern). -/
def containsSub (pat : List Char) : List Char → Bool
  | [] => pat.isEmpty
  | c :: t => pat.isPrefixOf (c :: t) || containsSub pat t

/-- Case-insensitive substring test (`re.IGNORECASE` search of an escaped
keyword, and `keyword.lower() in tag.lower()`). -/
def containsCI (needle hay : String) : Bool :=
  containsSub needle.toLower.data hay.toLower.data

/-- `extract_tech_keywords` from scraper.py: match the fixed vocabulary
case-insensitively against the model name (last path component of the id)
and against each tag; collect into a set.  Python returns `list(set(...))`
whose iteration order is unspecified; modelled as `dedup` of the matches. -/
def extract_tech_keywords (model_id : String) (tags : List String) : List String :=
  let model_name :=
    if containsSub "/".data model_id.data then (model_id.splitOn "/").getLastD model_id
    else model_id
  let fromName := KNOWN_TECH_KEYWORDS.filter (fun kw => containsCI kw model_name)
  let fromTags := KNOWN_TECH_KEYWORDS.filter (fun kw =>
    tags.any (fun tag => kw.toLower == tag.toLower || containsCI kw tag))
  (fromName ++ fromTags).dedup

/-- A Python dict of counts in insertion order: increment key `k`,
appending `(k, 1)` when absent (`d[k] = d.get(k, 0) + 1` and
`Counter.__iadd__`). -/
def incr : List (String × Nat) → String → List (String × Nat)
  | [], k => [(k, 1)]
  | (a, n) :: t, k => if a = k then (a, n + 1) :: t else (a, n) :: incr t k

/-- `d.get(k, 0)` on an association-list dict. -/
def lookupD (l : List (String × Nat)) (k : String) : Nat :=
  match l.find? (fun p => p.1 == k) with
  | some p => p.2
  | none => 0

/-- Sum of all counts of a dict (`sum(d.values())`). -/
def sumCounts (l : List (String × Nat)) : Nat := (l.map Prod.snd).sum

/-- Comparison used for `sorted(d.items(), key=lambda x: x[1], reverse=True)`:
the stable merge sort with this `le` yields counts in descending order with
ties kept in first-seen order, exactly like CPython's stable sort. -/
def descByCount (a b : String × Nat) : Bool := decide (b.2 ≤ a.2)

/-- `tech_distribution` statistic from `collect_all_data` (scraper.py):
count `tech_category` (default "其他") over the *concatenation*
`trending_models + most_downloaded + most_liked`. -/
def tech_distribution (all_models : List ModelRecord) : List (String × Nat) :=
  all_models.foldl (fun acc m => incr acc (m.tech_category.getD "其他")) []

/-- One iteration of the `org_dist` loop in `collect_all_data` (scraper.py):
count the author, skipping records whose author is falsy
(`if author:` — absent or empty string). -/
def org_step (acc : List (String × Nat)) (m : ModelRecord) : List (String × Nat) :=
  match m.author with
  | some a => if a = "" then acc else incr acc a
  | none => acc

/-- The `org_dist` dict from `collect_all_data` (scraper.py). -/
def org_counts (all_models : List ModelRecord) : List (String × Nat) :=
  all_models.foldl org_step []

/-- `top_organizations` statistic from `collect_all_data` (scraper.py):
sort `org_dist` by count descending (stable) and keep the first 20. -/
def top_organizations (all_models : List ModelRecord) : List (String × Nat) :=
  ((org_counts all_models).mergeSort descByCount).take 20

/-- `size_distribution` statistic from `collect_all_data` (scraper.py). -/
def size_distribution (all_models : List ModelRecord) : List (String × Nat) :=
  all_models.foldl (fun acc m => incr acc (m.size_category.getD "未知")) []

/-- `calculate_keyword_stats` from scraper.py: count each keyword once per
model (`set(keywords)`), keep counts ≥ 2, sort by count descending (stable)
and keep the first 50. -/
def keyword_counter (all_models : List ModelRecord) : List (String × Nat) :=
  all_models.foldl (fun acc m => (m.tech_keywords.dedup).foldl incr acc) []

def calculate_keyword_stats (all_models : List ModelRecord) : List (String × Nat) :=
  let filtered := (keyword_counter all_models).filter (fun p => decide (2 ≤ p.2))
  (filtered.mergeSort descByCount).take 50

lemma lookupD_nil (k : String) : lookupD [] k = 0 := rfl

lemma lookupD_cons (a : String) (n : Nat) (t : List (String × Nat)) (k : String) :
    lookupD ((a, n) :: t) k = if a = k then n else lookupD t k := by
  by_cases h : a = k
  · simp [lookupD, List.find?_cons, h]
  · have hb : (a == k) = false := by simp [h]
    simp [lookupD, List.find?_cons, hb, h]

lemma incr_nil (k : String) : incr [] k = [(k, 1)] := rfl

lemma incr_cons_eq (a : String) (n : Nat) (t : List (String × Nat)) :
    incr ((a, n) :: t) a = (a, n + 1) :: t := by simp [incr]

lemma incr_cons_ne (a k : String) (n : Nat) (t : List (String × Nat))
    (h : ¬a = k) : incr ((a, n) :: t) k = (a, n) :: incr t k := by
  simp [incr, h]

lemma lookupD_incr (l : List (String × Nat)) (k k' : String) :
    lookupD (incr l k) k' = lookupD l k' + (if k' = k then 1 else 0) := by
  induction l with
  | nil =>
    rw [incr_nil, lookupD_cons, lookupD_nil]
    by_cases h : k = k'
    · subst h; simp
    · have h' : ¬k' = k := fun hc => h hc.symm
      simp [h, h']
  | cons p t ih =>
    obtain ⟨a, n⟩ := p
    by_cases hak : a = k
    · subst hak
      rw [incr_cons_eq, lookupD_cons, lookupD_cons]
      by_cases h : a = k'
      · subst h; simp
      · have h' : ¬k' = a := fun hc => h hc.symm
        simp [h, h']
    · rw [incr_cons_ne a k n t hak, lookupD_cons, lookupD_cons]
      by_cases h : a = k'
      · subst h
        have h' : ¬a = k := hak
        simp [h']
      · simp [h, ih]

lemma sumCounts_incr (l : List (String × Nat)) (k : String) :
    sumCounts (incr l k) = sumCounts l + 1 := by
  induction l with
  | nil => simp [incr, sumCounts]
  | cons p t ih =>
    obtain ⟨a, n⟩ := p
    by_cases h : a = k
    · simp [incr, h, sumCounts]
      omega
    · simp only [incr, if_neg h]
      simp only [sumCounts, List.map_cons, List.sum_cons] at ih ⊢
      omega

lemma mem_incr (l : List (String × Nat)) (k : String) :
    ∀ p ∈ incr l k, p.1 = k ∨ p ∈ l := by
  induction l with
  | nil => simp [incr]
  | cons q t ih =>
    obtain ⟨a, n⟩ := q
    intro p hp
    by_cases h : a = k
    · rw [incr, if_pos h] at hp
      rcases List.mem_cons.1 hp with rfl | hp'
      · exact Or.inl h
      · exact Or.inr (List.mem_cons_of_mem _ hp')
    · rw [incr, if_neg h] at hp
      rcases List.mem_cons.1 hp with rfl | hp'
      · exact Or.inr (List.mem_cons_self _ _)
      · rcases ih p hp' with hk | hm
        · exact Or.inl hk
        · exact Or.inr (List.mem_cons_of_mem _ hm)

lemma keys_incr (l : List (String × Nat)) (k : String) :
    (incr l k).map Prod.fst = l.map Prod.fst ∨
    (incr l k).map Prod.fst = l.map Prod.fst ++ [k] := by
  induction l with
  | nil => simp [incr]
  | cons q t ih =>
    obtain ⟨a, n⟩ := q
    by_cases h : a = k
    · simp [incr, h]
    · rcases ih with ih | ih <;>
        simp [incr, if_neg h, ih]

lemma keys_nodup_incr (l : List (String × Nat)) (k : String)
    (h : (l.map Prod.fst).Nodup) : ((incr l k).map Prod.fst).Nodup := by
  induction l with
  | nil => simp [incr]
  | cons q t ih =>
    obtain ⟨a, n⟩ := q
    simp only [List.map_cons, List.nodup_cons] at h
    by_cases hak : a = k
    · simp only [incr, if_pos hak, List.map_cons, List.nodup_cons]
      exact h
    · simp only [incr, if_neg hak, List.map_cons, List.nodup_cons]
      refine ⟨?_, ih h.2⟩
      intro hc
      rcases keys_incr t k with hk | hk
      · rw [hk] at hc; exact h.1 hc
      · rw [hk] at hc
        rcases List.mem_append.1 hc with hc | hc
        · exact h.1 hc
        · simp at hc; exact hak hc

lemma lookupD_foldl_incr (f : ModelRecord → String) (l : List ModelRecord)
    (acc : List (String × Nat)) (c : String) :
    lookupD (l.foldl (fun acc m => incr acc (f m)) acc) c
      = lookupD acc c + l.countP (fun m => f m == c) := by
  induction l generalizing acc with
  | nil => simp
  | cons m rest ih =>
    rw [List.foldl_cons, ih, lookupD_incr, List.countP_cons]
    by_cases h : f m = c
    · simp [h]
      omega
    · have h' : ¬c = f m := fun hc => h hc.symm
      simp [h, h']

lemma sumCounts_foldl_incr (f : ModelRecord → String) (l : List ModelRecord)
    (acc : List (String × Nat)) :
    sumCounts (l.foldl (fun acc m => incr acc (f m)) acc)
      = sumCounts acc + l.length := by
  induction l generalizing acc with
  | nil => simp
  | cons m rest ih =>
    rw [List.foldl_cons, ih, sumCounts_incr, List.length_cons]
    omega

/-- C1 (amended): `techDistribution` counts categories over the plain
concatenation `trending + mostDownloaded + mostLiked` (no deduplication):
each category is assigned the number of records of that category in the
concatenation, and the counts sum to the total number of fetched records,
duplicates included — not to the number of distinct ids. -/
theorem tech_distribution_counts_concatenation
    (trending downloaded liked : List ModelRecord) :
    sumCounts (tech_distribution (trending ++ downloaded ++ liked))
      = trending.length + downloaded.length + liked.length ∧
    ∀ c : String,
      lookupD (tech_distribution (trending ++ downloaded ++ liked)) c
        = (trending ++ downloaded ++ liked).countP
            (fun m => m.tech_category.getD "其他" == c) := by
  constructor
  · have h : sumCounts (tech_distribution (trending ++ downloaded ++ liked))
        = sumCounts [] + (trending ++ downloaded ++ liked).length :=
      sumCounts_foldl_incr _ _ _
    rw [h]
    simp only [sumCounts, List.map_nil, List.sum_nil, List.length_append]
    omega
  · intro c
    have h : lookupD (tech_distribution (trending ++ downloaded ++ liked)) c
        = lookupD [] c + (trending ++ downloaded ++ liked).countP
            (fun m => m.tech_category.getD "其他" == c) :=
      lookupD_foldl_incr _ _ _ _
    simpa [lookupD_nil] using h

/-- A sample enriched language-model record. -/
def sample_lm : ModelRecord :=
  { id := "org/model-a", author := some "org",
    pipeline_tag := some "text-generation", downloads := 1500, likes := 10,
    tech_category := some "语言模型", size_category := some "未知" }

/-- C1 counterexample: when the same record appears in two of the fetched
lists, the `techDistribution` counts sum to 2 while the deduplicated union
has a single distinct id — the claimed equality with the number of distinct
ids fails. -/
theorem tech_distribution_counts_cex :
    sumCounts (tech_distribution ([sample_lm] ++ [sample_lm] ++ [])) = 2 ∧
    (dedup_by_id ([sample_lm] ++ [sample_lm] ++ [])).length = 1 ∧
    sumCounts (tech_distribution ([sample_lm] ++ [sample_lm] ++ []))
      ≠ (dedup_by_id ([sample_lm] ++ [sample_lm] ++ [])).length := by
  refine ⟨by decide, by decide, by decide⟩

lemma descByCount_trans :
    ∀ a b c : String × Nat, descByCount a b → descByCount b c → descByCount a c := by
  intro a b c hab hbc
  simp only [descByCount, decide_eq_true_eq] at *
  omega

lemma descByCount_total : ∀ a b : String × Nat, descByCount a b || descByCount b a := by
  intro a b
  simp only [descByCount]
  by_cases h : b.2 ≤ a.2
  · simp [h]
  · have h' : a.2 ≤ b.2 := by omega
    simp [h']

lemma org_step_mem (acc : List (String × Nat)) (m : ModelRecord) :
    ∀ p ∈ org_step acc m, p ∈ acc ∨ (m.author = some p.1 ∧ p.1 ≠ "") := by
  intro p hp
  match hma : m.author with
  | none =>
    simp only [org_step, hma] at hp
    exact Or.inl hp
  | some a =>
    simp only [org_step, hma] at hp
    by_cases hae : a = ""
    · rw [if_pos hae] at hp
      exact Or.inl hp
    · rw [if_neg hae] at hp
      rcases mem_incr acc a p hp with hk | hmem
      · exact Or.inr ⟨by rw [hk], hk ▸ hae⟩
      · exact Or.inl hmem

lemma org_counts_mem_aux (l : List ModelRecord) (acc : List (String × Nat)) :
    ∀ p ∈ l.foldl org_step acc,
    p ∈ acc ∨ ∃ m ∈ l, m.author = some p.1 ∧ p.1 ≠ "" := by
  induction l generalizing acc with
  | nil => simp
  | cons m rest ih =>
    intro p hp
    rw [List.foldl_cons] at hp
    rcases ih _ p hp with hstep | ⟨m', hm', ha', hne⟩
    · rcases org_step_mem acc m p hstep with hmem | ⟨ha, hne⟩
      · exact Or.inl hmem
      · exact Or.inr ⟨m, List.mem_cons_self _ _, ha, hne⟩
    · exact Or.inr ⟨m', List.mem_cons_of_mem _ hm', ha', hne⟩

/-- C2 (amended): `topOrganizations` has at most 20 entries, sorted by
count descending; every key is a non-empty author string of some record
(absent and empty authors contribute nothing).  The literal author string
"unknown" is *not* excluded: Python only skips falsy authors. -/
theorem top_organizations_spec (all_models : List ModelRecord) :
    (top_organizations all_models).length ≤ 20 ∧
    (top_organizations all_models).Pairwise (fun a b => b.2 ≤ a.2) ∧
    ∀ p ∈ top_organizations all_models,
      (∃ m ∈ all_models, m.author = some p.1) ∧ p.1 ≠ "" := by
  refine ⟨?_, ?_, ?_⟩
  · exact List.length_take_le _ _
  · have hs := List.sorted_mergeSort descByCount_trans descByCount_total
      (org_counts all_models)
    have hp : (top_organizations all_models).Pairwise
        (fun a b => descByCount a b) :=
      List.Pairwise.sublist (List.take_sublist _ _) hs
    exact hp.imp (fun hab => by
      simpa [descByCount, decide_eq_true_eq] using hab)
  · intro p hp
    have hp1 : p ∈ (org_counts all_models).mergeSort descByCount :=
      List.take_subset _ _ hp
    have hp2 : p ∈ org_counts all_models := List.mem_mergeSort.1 hp1
    rcases org_counts_mem_aux all_models [] p hp2 with hnil | ⟨m, hm, ha, hne⟩
    · simp at hnil
    · exact ⟨⟨m, hm, ha⟩, hne⟩

/-- A sample record whose author is the literal string "unknown". -/
def sample_unknown : ModelRecord :=
  { id := "unknown/model-b", author := some "unknown" }

/-- C2 counterexample: a record whose author is the literal string
"unknown" is counted as an organization, so "unknown" appears as a key of
`topOrganizations`, contradicting the claimed exclusion of the sentinel. -/
theorem top_organizations_unknown_cex :
    ("unknown", 1) ∈ top_organizations [sample_unknown] := by
  have h1 : org_counts [sample_unknown] = [("unknown", 1)] := by decide
  simp [top_organizations, h1]

lemma lookupD_foldl_incr_count (ks : List String) (acc : List (String × Nat))
    (k : String) :
    lookupD (ks.foldl incr acc) k = lookupD acc k + ks.count k := by
  induction ks generalizing acc with
  | nil => simp
  | cons a t ih =>
    rw [List.foldl_cons, ih, lookupD_incr, List.count_cons]
    by_cases h : k = a
    · simp [h]
      omega
    · have hb : (k == a) = false := by simp [h]
      simp [h, hb]
      exact fun hc => h hc.symm

lemma lookupD_keyword_counter_aux (l : List ModelRecord)
    (acc : List (String × Nat)) (k : String) :
    lookupD (l.foldl (fun acc m => (m.tech_keywords.dedup).foldl incr acc) acc) k
      = lookupD acc k + l.countP (fun m => decide (k ∈ m.tech_keywords)) := by
  induction l generalizing acc with
  | nil => simp
  | cons m rest ih =>
    rw [List.foldl_cons, ih, lookupD_foldl_incr_count, List.count_dedup,
      List.countP_cons]
    by_cases h : k ∈ m.tech_keywords
    · simp [h]
      omega
    · simp [h]

lemma keys_nodup_foldl_incr (ks : List String) (acc : List (String × Nat))
    (h : (acc.map Prod.fst).Nodup) : ((ks.foldl incr acc).map Prod.fst).Nodup := by
  induction ks generalizing acc with
  | nil => exact h
  | cons a t ih => exact ih _ (keys_nodup_incr _ _ h)

lemma keys_nodup_keyword_counter (all_models : List ModelRecord) :
    ((keyword_counter all_models).map Prod.fst).Nodup := by
  suffices h : ∀ (l : List ModelRecord) (acc : List (String × Nat)),
      (acc.map Prod.fst).Nodup →
      ((l.foldl (fun acc m => (m.tech_keywords.dedup).foldl incr acc) acc).map
        Prod.fst).Nodup by
    exact h all_models [] (by simp)
  intro l
  induction l with
  | nil => exact fun acc h => h
  | cons m rest ih => exact fun acc h => ih _ (keys_nodup_foldl_incr _ _ h)

lemma mem_eq_lookupD (l : List (String × Nat))
    (h : (l.map Prod.fst).Nodup) : ∀ p ∈ l, p.2 = lookupD l p.1 := by
  induction l with
  | nil => simp
  | cons q t ih =>
    obtain ⟨a, n⟩ := q
    simp only [List.map_cons, List.nodup_cons] at h
    intro p hp
    rcases List.mem_cons.1 hp with rfl | hp'
    · rw [lookupD_cons]
      simp
    · rw [lookupD_cons]
      have hne : a ≠ p.1 := by
        intro hc
        exact h.1 (hc ▸ List.mem_map_of_mem Prod.fst hp')
      rw [if_neg hne]
      exact ih h.2 p hp'

/-- C9: `techKeywords` keeps only keywords counted at least twice, holds at
most 50 entries sorted by count descending, and each model contributes at
most once to a keyword's count: the count of a kept keyword equals the
number of models whose (deduplicated) keyword set contains it, so it never
exceeds the number of models; `extract_tech_keywords` itself never lists a
keyword twice for one model. -/
theorem keyword_stats_spec (all_models : List ModelRecord) :
    (calculate_keyword_stats all_models).length ≤ 50 ∧
    (calculate_keyword_stats all_models).Pairwise (fun a b => b.2 ≤ a.2) ∧
    (∀ p ∈ calculate_keyword_stats all_models,
      2 ≤ p.2 ∧
      p.2 = all_models.countP (fun m => decide (p.1 ∈ m.tech_keywords)) ∧
      p.2 ≤ all_models.length) ∧
    ∀ (model_id : String) (tags : List String),
      (extract_tech_keywords model_id tags).Nodup := by
  refine ⟨List.length_take_le _ _, ?_, ?_, ?_⟩
  · have hs := List.sorted_mergeSort descByCount_trans descByCount_total
      ((keyword_counter all_models).filter (fun p => decide (2 ≤ p.2)))
    have hp : (calculate_keyword_stats all_models).Pairwise
        (fun a b => descByCount a b) :=
      List.Pairwise.sublist (List.take_sublist _ _) hs
    exact hp.imp (fun hab => by
      simpa [descByCount, decide_eq_true_eq] using hab)
  · intro p hp
    have hp1 : p ∈ ((keyword_counter all_models).filter
        (fun q => decide (2 ≤ q.2))).mergeSort descByCount :=
      List.take_subset _ _ hp
    have hp2 := List.mem_mergeSort.1 hp1
    have hp3 := List.mem_filter.1 hp2
    have hcnt : p.2 = lookupD (keyword_counter all_models) p.1 :=
      mem_eq_lookupD _ (keys_nodup_keyword_counter all_models) p hp3.1
    have hlk : lookupD (keyword_counter all_models) p.1
        = all_models.countP (fun m => decide (p.1 ∈ m.tech_keywords)) := by
      have h := lookupD_keyword_counter_aux all_models [] p.1
      simpa [keyword_counter, lookupD_nil] using h
    refine ⟨by simpa using hp3.2, hcnt.trans hlk, ?_⟩
    rw [hcnt, hlk]
    exact List.countP_le_length _
  · intro model_id tags
    exact List.nodup_dedup _

/-- Sample records sharing the keyword "Qwen". -/
def sample_kw_a : ModelRecord := { id := "alibaba/qwen-7b", tech_keywords := ["Qwen"] }

/-- Second sample record sharing the keyword "Qwen". -/
def sample_kw_b : ModelRecord := { id := "alibaba/qwen-14b", tech_keywords := ["Qwen"] }

/-- Witness for C9 at a concrete two-model input. -/
theorem keyword_stats_spec_witness :
    2 ≤ (("Qwen", 2) : String × Nat).2 ∧
    (("Qwen", 2) : String × Nat).2 = [sample_kw_a, sample_kw_b].countP
      (fun m => decide ((("Qwen", 2) : String × Nat).1 ∈ m.tech_keywords)) ∧
    (("Qwen", 2) : String × Nat).2 ≤ [sample_kw_a, sample_kw_b].length :=
  (keyword_stats_spec [sample_kw_a, sample_kw_b]).2.2.1 ("Qwen", 2) (by
    have hc : keyword_counter [sample_kw_a, sample_kw_b] = [("Qwen", 2)] := by
      decide
    simp [calculate_keyword_stats, hc])

/-- Witness for C2 at a concrete input. -/
theorem top_organizations_spec_witness :
    (∃ m ∈ [sample_unknown],
      m.author = some (("unknown", 1) : String × Nat).1) ∧
    (("unknown", 1) : String × Nat).1 ≠ "" :=
  (top_organizations_spec [sample_unknown]).2.2 ("unknown", 1) (by
    have h1 : org_counts [sample_unknown] = [("unknown", 1)] := by decide
    simp [top_organizations, h1])

/-- Witness for C8 at a concrete tag. -/
theorem tech_category_first_match_witness :
    get_tech_category (some "text-to-image") = "图像生成" :=
  tech_category_first_match.2.2.2 "text-to-image"
    ("图像生成", ["text-to-image", "image-to-image", "unconditional-image-generation"])
    (by decide) (by decide)

/-- Round-half-even of the exact rational `n / m` to an integer (CPython's
banker's rounding of an exact decimal value, used to model `:.1f`). -/
def rheDiv (n m : Nat) : Nat :=
  let q := n / m
  let r := n % m
  if 2 * r < m then q
  else if 2 * r > m then q + 1
  else if q % 2 = 0 then q else q + 1

/-- The download formatting of generate_html.py line 122:
`f"{downloads/1000:.1f}K" if downloads < 1e6 else f"{downloads/1e6:.1f}M"`,
with the one-decimal rounding taken exactly on rationals. -/
def downloads_str (downloads : Nat) : String :=
  if downloads < 1000000 then
    let t := rheDiv downloads 100
    toString (t / 10) ++ "." ++ toString (t % 10) ++ "K"
  else
    let t := rheDiv downloads 100000
    toString (t / 10) ++ "." ++ toString (t % 10) ++ "M"

lemma append_data_getLast? (x : String) (c : Char) :
    (x ++ String.singleton c).data.getLast? = some c := by
  rw [String.data_append]
  exact List.getLast?_concat _

/-- C4: the rendered download string carries suffix "K" exactly when the
value is below 1,000,000 and suffix "M" exactly when it is at least
1,000,000; the boundary value 1,000,000 renders as "1.0M" (and the spec's
other boundary examples render as stated). -/
theorem downloads_str_suffix_boundary :
    (∀ d : Nat,
      ((downloads_str d).data.getLast? = some 'K' ↔ d < 1000000) ∧
      ((downloads_str d).data.getLast? = some 'M' ↔ 1000000 ≤ d)) ∧
    downloads_str 1000000 = "1.0M" ∧
    downloads_str 999999 = "1000.0K" ∧
    downloads_str 1500 = "1.5K" ∧
    downloads_str 500 = "0.5K" := by
  refine ⟨?_, by decide, by decide, by decide, by decide⟩
  intro d
  by_cases h : d < 1000000
  · have e : (downloads_str d).data.getLast? = some 'K' := by
      simp only [downloads_str, if_pos h]
      exact append_data_getLast? _ 'K'
    rw [e]
    refine ⟨⟨fun _ => h, fun _ => rfl⟩, ?_, ?_⟩
    · intro hc
      exact absurd hc (by decide)
    · intro hc
      omega
  · have e : (downloads_str d).data.getLast? = some 'M' := by
      simp only [downloads_str, if_neg h]
      exact append_data_getLast? _ 'M'
    rw [e]
    refine ⟨⟨?_, ?_⟩, ⟨fun _ => by omega, fun _ => rfl⟩⟩
    · intro hc
      exact absurd hc (by decide)
    · intro hc
      exact absurd hc h

/-- The `llm_ratio` computation of generate_html.py line 82:
`tech_dist.get("语言模型", 0) / sum(tech_dist.values()) * 100` guarded by
`if tech_dist and sum(tech_dist.values()) > 0 else 0` (exact rationals). -/
def llm_pct (tech_dist : List (String × Nat)) : Rat :=
  if tech_dist ≠ [] ∧ 0 < sumCounts tech_dist then
    (lookupD tech_dist "语言模型" : Rat) / (sumCounts tech_dist : Rat) * 100
  else 0

/-- C6: with all three fetched lists empty, every statistic of the snapshot
is the empty mapping, and the report's language-model percentage is 0 when
the tech distribution is empty (the guard short-circuits, no division by
zero is reachable). -/
theorem empty_input_statistics_empty :
    tech_distribution [] = [] ∧
    org_counts [] = [] ∧
    top_organizations [] = [] ∧
    size_distribution [] = [] ∧
    keyword_counter [] = [] ∧
    calculate_keyword_stats [] = [] ∧
    llm_pct (tech_distribution []) = 0 ∧
    llm_pct [] = 0 := by
  refine ⟨rfl, rfl, ?_, rfl, rfl, ?_, ?_, ?_⟩
  · simp [top_organizations, org_counts]
  · simp [calculate_keyword_stats, keyword_counter]
  · simp [llm_pct, tech_distribution]
  · simp [llm_pct]

/-- The css-class selection of `generate_keyword_cloud_html`
(generate_html.py): thresholds `max_count * 0.7 / 0.4 / 0.2` taken as exact
rationals, compared with integer cross-multiplication. -/
def kw_css_class (count max_count : Nat) : String :=
  if 7 * max_count ≤ 10 * count then "kw-hot"
  else if 4 * max_count ≤ 10 * count then "kw-warm"
  else if 2 * max_count ≤ 10 * count then "kw-medium"
  else "kw-normal"

/-- `max(tech_keywords.values()) if tech_keywords else 1`. -/
def kw_max_count (tech_keywords : List (String × Nat)) : Nat :=
  if tech_keywords.isEmpty then 1
  else (tech_keywords.map Prod.snd).foldl Nat.max 0

/-- The `cloud_items` list of `generate_keyword_cloud_html`
(generate_html.py): sort by count descending, keep the first 30, render
each as a search hyperlink tagged with its heat class. -/
def keyword_cloud_items (tech_keywords : List (String × Nat)) : List String :=
  let sorted_keywords := tech_keywords.mergeSort descByCount
  let max_count := kw_max_count tech_keywords
  (sorted_keywords.take 30).map (fun p =>
    "<a href=\"https://huggingface.co/models?search=" ++ p.1 ++
      "\" target=\"_blank\" class=\"" ++ kw_css_class p.2 max_count ++
      "\">" ++ p.1 ++ "</a>")

/-- `generate_keyword_cloud_html` from generate_html.py: a placeholder
paragraph for an empty mapping, otherwise the newline-joined link items. -/
def generate_keyword_cloud_html (tech_keywords : List (String × Nat)) : String :=
  if tech_keywords = [] then
    "<p style=\"color:#999; text-align:center;\">暂无技术关键字数据</p>"
  else
    String.intercalate "\n" (keyword_cloud_items tech_keywords)

lemma intercalate_go_prefix (s : String) (l : List String) (acc : String) :
    ∃ t : String, String.intercalate.go acc s l = acc ++ t := by
  induction l generalizing acc with
  | nil => exact ⟨"", by simp [String.intercalate.go]⟩
  | cons a as ih =>
    obtain ⟨t, ht⟩ := ih (acc ++ s ++ a)
    refine ⟨s ++ a ++ t, ?_⟩
    rw [String.intercalate.go, ht]
    rw [String.append_assoc, String.append_assoc, String.append_assoc]

lemma intercalate_cons_prefix (s a : String) (as : List String) :
    ∃ t : String, String.intercalate s (a :: as) = a ++ t := by
  rw [String.intercalate]
  exact intercalate_go_prefix s as a

/-- C10: the interactive keyword cloud renders at most 30 link items, taken
from the keyword mapping sorted by count descending, and the output is the
fixed placeholder paragraph exactly when the mapping is empty. -/
theorem keyword_cloud_spec (tech_keywords : List (String × Nat)) :
    (keyword_cloud_items tech_keywords).length ≤ 30 ∧
    ((tech_keywords.mergeSort descByCount).take 30).Pairwise
      (fun a b => b.2 ≤ a.2) ∧
    (generate_keyword_cloud_html tech_keywords =
        "<p style=\"color:#999; text-align:center;\">暂无技术关键字数据</p>"
      ↔ tech_keywords = []) := by
  refine ⟨?_, ?_, ?_, ?_⟩
  · simp only [keyword_cloud_items, List.length_map]
    exact List.length_take_le _ _
  · have hs := List.sorted_mergeSort descByCount_trans descByCount_total
      tech_keywords
    exact (List.Pairwise.sublist (List.take_sublist _ _) hs).imp
      (fun hab => by simpa [descByCount, decide_eq_true_eq] using hab)
  · intro heq
    by_contra hne
    rw [generate_keyword_cloud_html, if_neg hne] at heq
    have hitems_ne : keyword_cloud_items tech_keywords ≠ [] := by
      intro hc
      have hzero : (keyword_cloud_items tech_keywords).length = 0 := by
        rw [hc]
        rfl
      simp only [keyword_cloud_items, List.length_map, List.length_take,
        List.length_mergeSort] at hzero
      have htk : tech_keywords.length = 0 := by omega
      exact hne (List.length_eq_zero.1 htk)
    obtain ⟨a, as, hitems⟩ := List.exists_cons_of_ne_nil hitems_ne
    rw [hitems] at heq
    obtain ⟨t, ht⟩ := intercalate_cons_prefix "\n" a as
    rw [ht] at heq
    have hamem : a ∈ keyword_cloud_items tech_keywords := by
      rw [hitems]
      exact List.mem_cons_self _ _
    simp only [keyword_cloud_items, List.mem_map] at hamem
    obtain ⟨p, _, hp⟩ := hamem
    have hlen2 : ∀ (x y : String), 2 ≤ x.data.length → 2 ≤ (x ++ y).data.length := by
      intro x y hx
      rw [String.data_append, List.length_append]
      omega
    have hget : ∀ (x y : String), 2 ≤ x.data.length →
        (x ++ y).data[1]? = x.data[1]? := by
      intro x y hx
      rw [String.data_append]
      exact List.getElem?_append_left (by omega)
    have hL2 : (2 : Nat) ≤
        ("<a href=\"https://huggingface.co/models?search=").data.length := by
      decide
    have hcharA : (a ++ t).data[1]? = some 'a' := by
      rw [hget _ _ (by
        rw [← hp]
        exact hlen2 _ _ (hlen2 _ _ (hlen2 _ _ (hlen2 _ _ (hlen2 _ _
          (hlen2 _ _ hL2))))))]
      rw [← hp]
      rw [hget _ _ (hlen2 _ _ (hlen2 _ _ (hlen2 _ _ (hlen2 _ _ (hlen2 _ _ hL2)))))]
      rw [hget _ _ (hlen2 _ _ (hlen2 _ _ (hlen2 _ _ (hlen2 _ _ hL2))))]
      rw [hget _ _ (hlen2 _ _ (hlen2 _ _ (hlen2 _ _ hL2)))]
      rw [hget _ _ (hlen2 _ _ (hlen2 _ _ hL2))]
      rw [hget _ _ (hlen2 _ _ hL2)]
      rw [hget _ _ hL2]
      decide
    rw [heq] at hcharA
    exact absurd hcharA (by decide)
  · intro h
    rw [h]
    rfl

/-- Python `str.replace` (all non-overlapping occurrences, left to right),
by structural recursion on a character-count fuel.  The report generator
only calls it with non-empty patterns. -/
def replaceFuel (pat rep : List Char) : Nat → List Char → List Char
  | _, [] => []
  | 0, s => s
  | fuel + 1, c :: rest =>
    if pat.isPrefixOf (c :: rest) then
      rep ++ replaceFuel pat rep fuel ((c :: rest).drop pat.length)
    else c :: replaceFuel pat rep fuel rest

/-- `filename.replace(pattern, replacement)` for non-empty patterns. -/
def py_replace (s pattern replacement : String) : String :=
  String.mk (replaceFuel pattern.data replacement.data s.data.length s.data)

/-- Python `str.startswith`. -/
def py_startswith (s pre : String) : Bool := pre.data.isPrefixOf s.data

/-- Python `str.endswith`. -/
def py_endswith (s suf : String) : Bool := suf.data.isSuffixOf s.data

/-- Round-half-even of a rational to an integer (CPython `:.0f` taken on
the exact value). -/
def rheRat0 (q : Rat) : Int :=
  let f := q.floor
  if q - (f : Rat) < (1 : Rat) / 2 then f
  else if (1 : Rat) / 2 < q - (f : Rat) then f + 1
  else if f % 2 = 0 then f else f + 1

/-- `f"{x:.0f}"` of a rational. -/
def pct0_str (q : Rat) : String := toString (rheRat0 q)

/-- `f"{x:.2f}"` of a non-negative rational. -/
def fmt2_str (q : Rat) : String :=
  let t := (rheRat0 (q * 100)).toNat
  toString (t / 100) ++ "." ++
    (if t % 100 < 10 then "0" ++ toString (t % 100) else toString (t % 100))

/-- `HF_TAG_MAP` from generate_html.py. -/
def HF_TAG_MAP : List (String × String) := [
  ("语言模型", "text-generation"),
  ("多模态模型", "multimodal"),
  ("图像生成", "text-to-image"),
  ("视频生成", "text-to-video"),
  ("语音合成", "text-to-speech"),
  ("语音识别", "automatic-speech-recognition"),
  ("文档理解", "document-question-answering"),
  ("嵌入模型", "feature-extraction"),
  ("图像理解", "image-classification")]

/-- `HF_TAG_MAP.get(tech, "")`. -/
def hf_tag_lookup (k : String) : String :=
  match HF_TAG_MAP.find? (fun p => p.1 == k) with
  | some p => p.2
  | none => ""

/-- The tag-cloud fragment of `generate_html` (generate_html.py lines
94-101): empty for an empty distribution, otherwise one styled link per
category in count-descending order with a font size interpolated from the
count (the float arithmetic `0.8 + (count/max)*1.0` taken on exact
rationals). -/
def tag_cloud_html (tech_dist : List (String × Nat)) : String :=
  if tech_dist = [] then ""
  else
    let max_count := (tech_dist.map Prod.snd).foldl Nat.max 0
    String.join ((tech_dist.mergeSort descByCount).map (fun p =>
      let tag := hf_tag_lookup p.1
      let url := if tag ≠ "" then
        "https://huggingface.co/models?pipeline_tag=" ++ tag else "#"
      let font_size := fmt2_str ((4 : Rat) / 5 + (p.2 : Rat) / (max_count : Rat))
      "<a href=\"" ++ url ++
        "\" target=\"_blank\" style=\"text-decoration:none; display:inline-block; margin:5px 10px; font-size:" ++
        font_size ++ "rem; color:#6366f1; font-weight:bold;\">" ++ p.1 ++
        "</a> "))

/-- The rank medal icons of the top-10 table. -/
def rank_icon (i : Nat) : String :=
  if i = 1 then "🥇" else if i = 2 then "🥈" else if i = 3 then "🥉"
  else toString i

/-- `category_colors` from generate_html.py. -/
def category_colors : List (String × String) := [
  ("语言模型", "#6366f1"), ("多模态模型", "#14b8a6"), ("图像生成", "#3b82f6"),
  ("语音合成", "#f59e0b"), ("语音识别", "#a855f7"), ("其他", "#6b7280")]

/-- `category_colors.get(category, "#6b7280")`. -/
def cat_color_lookup (k : String) : String :=
  match category_colors.find? (fun p => p.1 == k) with
  | some p => p.2
  | none => "#6b7280"

/-- One `<tr>` of the trending table (generate_html.py lines 107-139).
`model.get("author", "unknown")` on scraper output returns the stored
value, which Python renders as "None" when it is null. -/
def table_row (i : Nat) (m : ModelRecord) : String :=
  let full_id := m.id
  let name := (full_id.splitOn "/").getLastD full_id
  let category := m.tech_category.getD "其他"
  let author_val := match m.author with | some a => a | none => "None"
  let model_url := "https://huggingface.co/" ++ full_id
  let author_url := "https://huggingface.co/" ++ author_val
  let cat_tag := hf_tag_lookup category
  let cat_url := if cat_tag ≠ "" then
    "https://huggingface.co/models?pipeline_tag=" ++ cat_tag else "#"
  let cat_color := cat_color_lookup category
  "\n            <tr>\n                <td class=\"rank\">" ++ rank_icon i ++
    "</td>\n                <td class=\"model-name\"><a href=\"" ++ model_url ++
    "\" target=\"_blank\" style=\"text-decoration:none; color:#333; font-weight:600;\">" ++
    name ++
    "</a></td>\n                <td><a href=\"" ++ cat_url ++
    "\" target=\"_blank\" style=\"text-decoration:none;\"><span class=\"category-tag\" style=\"background-color: " ++
    cat_color ++ "\">" ++ category ++
    "</span></a></td>\n                <td class=\"downloads\">" ++
    downloads_str m.downloads ++
    "</td>\n                <td class=\"likes\">" ++ toString m.likes ++
    "</td>\n                <td class=\"author\"><a href=\"" ++ author_url ++
    "\" target=\"_blank\" style=\"text-decoration:none; color:#888;\">" ++
    author_val ++ "</a></td>\n            </tr>\n        "

/-- The concatenated trending rows (`for i, model in enumerate(trending, 1)`). -/
def table_rows (trending : List ModelRecord) : String :=
  String.join ((List.enumFrom 1 trending).map (fun p => table_row p.1 p.2))

/-- One archive `<li>` (generate_html.py line 88). -/
def archive_link_li (date_str : String) : String :=
  "<li style=\"padding: 8px 0; border-bottom: 1px solid #eee;\"><a href=\"?date=" ++
    date_str ++ "\" style=\"color: #667eea; text-decoration: none;\">" ++
    date_str ++ "</a></li>\n"

/-- The archive list of `generate_html` (generate_html.py lines 84-91):
scan the working directory listing for `hf_data_*.json`, sort, keep the
last 7, link each date; placeholder if none. -/
def archive_links (dir_files : List String) : String :=
  let files := (dir_files.filter (fun f =>
    py_startswith f "hf_data_" && py_endswith f ".json")).mergeSort
    (fun a b => decide (a ≤ b))
  let links := String.join ((files.drop (files.length - 7)).map (fun filename =>
    archive_link_li (py_replace (py_replace filename "hf_data_" "") ".json" "")))
  if links = "" then
    "<li style=\"padding: 8px 0; color: #999;\">暂无历史数据</li>"
  else links

/-- The snapshot fields read by `generate_html` (generate_html.py):
`date`, the three model lists, and the `tech_distribution` /
`top_organizations` / `size_distribution` / `tech_keywords` statistics. -/
structure Snapshot where
  date : Option String := none
  timestamp : Option String := none
  trending_models : List ModelRecord := []
  most_downloaded : List ModelRecord := []
  most_liked : List ModelRecord := []
  tech_distribution : List (String × Nat) := []
  top_organizations_stat : List (String × Nat) := []
  size_distribution_stat : List (String × Nat) := []
  tech_keywords : List (String × Nat) := []
deriving Repr, DecidableEq
/-- The full HTML f-string template of `generate_html` (generate_html.py
lines 141-635), transliterated literally: doubled braces become literal
braces, each interpolation becomes a parameter.  Apostrophes and braces
are written with escape codes. -/
def html_template (date len_trending_str tech_count_str total_models_str llm_pct_str tableRows keywordCloudHtml tagCloudHtml archiveLinks : String) : String :=
  "<!DOCTYPE html>
<html lang=\"zh-CN\">
<head>
    <meta charset=\"UTF-8\">
    <meta name=\"viewport\" content=\"width=device-width, initial-scale=1.0\">
    <title>HF 热榜日报 - Hugging Face 热门 AI 技术分析</title>
    <style>
        * \x7b margin: 0; padding: 0; box-sizing: border-box; \x7d
        body \x7b
            font-family: -apple-system, BlinkMacSystemFont, \x27Segoe UI\x27, Roboto, \x27PingFang SC\x27, \x27Microsoft YaHei\x27, sans-serif;
            background: linear-gradient(135deg, #667eea 0%, #764ba2 100%);
            min-height: 100vh;
            padding: 20px;
        \x7d
        .container \x7b max-width: 1200px; margin: 0 auto; \x7d
        .header \x7b
            text-align: center;
            color: white;
            padding: 40px 20px;
        \x7d
        .header h1 \x7b font-size: 2.5rem; margin-bottom: 10px; \x7d
        .header p \x7b font-size: 1.1rem; opacity: 0.9; \x7d
        .date-badge \x7b
            display: inline-block;
            background: rgba(255,255,255,0.2);
            padding: 8px 20px;
            border-radius: 20px;
            margin-top: 15px;
            font-size: 0.9rem;
        \x7d
        .stats-grid \x7b
            display: grid;
            grid-template-columns: repeat(auto-fit, minmax(200px, 1fr));
            gap: 20px;
            margin: 30px 0;
        \x7d
        .stat-card \x7b
            background: white;
            border-radius: 16px;
            padding: 25px;
            text-align: center;
            box-shadow: 0 10px 40px rgba(0,0,0,0.1);
        \x7d
        .stat-card .number \x7b
            font-size: 2.5rem;
            font-weight: bold;
            color: #667eea;
        \x7d
        .stat-card .label \x7b
            color: #666;
            margin-top: 5px;
        \x7d
        .card \x7b
            background: white;
            border-radius: 16px;
            padding: 30px;
            margin: 20px 0;
            box-shadow: 0 10px 40px rgba(0,0,0,0.1);
        \x7d
        .card h2 \x7b
            color: #333;
            margin-bottom: 20px;
            font-size: 1.5rem;
        \x7d
        table \x7b
            width: 100%;
            border-collapse: collapse;
        \x7d
        th, td \x7b
            padding: 15px 10px;
            text-align: left;
            border-bottom: 1px solid #eee;
        \x7d
        th \x7b
            background: #f8f9fa;
            font-weight: 600;
            color: #555;
        \x7d
        .rank \x7b font-size: 1.2rem; width: 60px; \x7d
        .model-name \x7b color: #333; \x7d
        .category-tag \x7b
            display: inline-block;
            padding: 4px 12px;
            border-radius: 12px;
            color: white;
            font-size: 0.85rem;
        \x7d
        .downloads \x7b color: #667eea; font-weight: 600; \x7d
        .likes \x7b color: #e91e63; \x7d
        .author \x7b color: #888; font-size: 0.9rem; \x7d
        .image-grid \x7b
            display: grid;
            grid-template-columns: repeat(auto-fit, minmax(400px, 1fr));
            gap: 20px;
            margin: 20px 0;
        \x7d
        .image-card \x7b
            background: white;
            border-radius: 16px;
            padding: 20px;
            box-shadow: 0 10px 40px rgba(0,0,0,0.1);
        \x7d
        .image-card h3 \x7b
            color: #333;
            margin-bottom: 15px;
            font-size: 1.2rem;
        \x7d
        .image-card img \x7b
            width: 100%;
            border-radius: 8px;
            cursor: pointer;
            transition: transform 0.3s ease, box-shadow 0.3s ease;
        \x7d
        .image-card img:hover \x7b
            transform: scale(1.02);
            box-shadow: 0 5px 20px rgba(0,0,0,0.2);
        \x7d
        .trends \x7b
            background: white;
            border-radius: 16px;
            padding: 30px;
            margin: 20px 0;
            box-shadow: 0 10px 40px rgba(0,0,0,0.1);
        \x7d
        .trends h2 \x7b
            color: #333;
            margin-bottom: 20px;
        \x7d
        .trends ul \x7b
            list-style: none;
        \x7d
        .trends li \x7b
            padding: 12px 0;
            border-bottom: 1px solid #eee;
            color: #555;
            line-height: 1.6;
        \x7d
        .trends li:last-child \x7b
            border-bottom: none;
        \x7d
        .footer \x7b
            text-align: center;
            color: white;
            padding: 30px;
            opacity: 0.9;
        \x7d
        .modal \x7b
            display: none;
            position: fixed;
            z-index: 1000;
            left: 0;
            top: 0;
            width: 100%;
            height: 100%;
            background-color: rgba(0,0,0,0.9);
            cursor: pointer;
        \x7d
        .modal-content \x7b
            margin: auto;
            display: block;
            max-width: 90%;
            max-height: 90%;
            position: absolute;
            top: 50%;
            left: 50%;
            transform: translate(-50%, -50%);
            border-radius: 8px;
            box-shadow: 0 0 30px rgba(255,255,255,0.2);
        \x7d
        .modal-close \x7b
            position: absolute;
            top: 20px;
            right: 35px;
            color: #fff;
            font-size: 40px;
            font-weight: bold;
            cursor: pointer;
            z-index: 1001;
        \x7d
        .modal-title \x7b
            position: absolute;
            bottom: 20px;
            left: 50%;
            transform: translateX(-50%);
            color: white;
            font-size: 1.2rem;
            text-align: center;
            background: rgba(0,0,0,0.5);
            padding: 10px 20px;
            border-radius: 8px;
        \x7d
        .click-hint \x7b
            text-align: center;
            color: #888;
            font-size: 0.85rem;
            margin-top: 8px;
        \x7d
        .tag-cloud \x7b
            text-align: center;
            padding: 20px;
            background: #f8f9fa;
            border-radius: 15px;
            margin-top: 15px;
        \x7d
        
        /* ========== 新增: 精美技术关键字词云样式 ========== */
        .keyword-cloud-container \x7b
            position: relative;
            background: 
                radial-gradient(ellipse at 20% 30%, rgba(99, 102, 241, 0.08) 0%, transparent 50%),
                radial-gradient(ellipse at 80% 70%, rgba(236, 72, 153, 0.08) 0%, transparent 50%),
                radial-gradient(ellipse at 50% 50%, rgba(20, 184, 166, 0.06) 0%, transparent 60%),
                linear-gradient(180deg, #fafbff 0%, #fff 100%);
            border-radius: 20px;
            padding: 35px 25px;
            min-height: 200px;
            display: flex;
            flex-wrap: wrap;
            justify-content: center;
            align-items: center;
            gap: 8px 12px;
            border: 1px solid rgba(102, 126, 234, 0.15);
            box-shadow: inset 0 2px 15px rgba(102, 126, 234, 0.05);
        \x7d
        .keyword-cloud-container a \x7b
            text-decoration: none;
            font-weight: 600;
            transition: all 0.3s cubic-bezier(0.4, 0, 0.2, 1);
            padding: 6px 14px;
            border-radius: 10px;
            display: inline-block;
            letter-spacing: 0.5px;
        \x7d
        .keyword-cloud-container a:hover \x7b
            transform: scale(1.12) translateY(-3px);
            box-shadow: 0 8px 25px rgba(0,0,0,0.15);
        \x7d
        /* 超热门 */
        .kw-hot \x7b
            background: linear-gradient(135deg, #667eea 0%, #764ba2 100%);
            color: white !important;
            font-size: 1.6rem;
            padding: 10px 18px;
            border-radius: 14px;
            box-shadow: 0 4px 15px rgba(102, 126, 234, 0.4);
        \x7d
        .kw-hot:hover \x7b
            box-shadow: 0 10px 35px rgba(102, 126, 234, 0.5) !important;
        \x7d
        /* 热门 */
        .kw-warm \x7b
            background: linear-gradient(135deg, #f093fb 0%, #f5576c 100%);
            color: white !important;
            font-size: 1.35rem;
            padding: 8px 15px;
            box-shadow: 0 3px 12px rgba(245, 87, 108, 0.3);
        \x7d
        /* 上升中 */
        .kw-medium \x7b
            background: linear-gradient(135deg, #4facfe 0%, #00f2fe 100%);
            color: white !important;
            font-size: 1.15rem;
            box-shadow: 0 3px 10px rgba(79, 172, 254, 0.3);
        \x7d
        /* 一般 */
        .kw-normal \x7b
            background: rgba(102, 126, 234, 0.1);
            color: #667eea !important;
            font-size: 1rem;
        \x7d
        .kw-normal:hover \x7b
            background: rgba(102, 126, 234, 0.2);
        \x7d
        
        .keyword-legend \x7b
            display: flex;
            justify-content: center;
            gap: 20px;
            margin-top: 15px;
            flex-wrap: wrap;
        \x7d
        .keyword-legend-item \x7b
            display: flex;
            align-items: center;
            gap: 6px;
            font-size: 0.8rem;
            color: #666;
        \x7d
        .keyword-legend-dot \x7b
            width: 12px;
            height: 12px;
            border-radius: 4px;
        \x7d
        .keyword-legend-dot.hot \x7b background: linear-gradient(135deg, #667eea 0%, #764ba2 100%); \x7d
        .keyword-legend-dot.warm \x7b background: linear-gradient(135deg, #f093fb 0%, #f5576c 100%); \x7d
        .keyword-legend-dot.medium \x7b background: linear-gradient(135deg, #4facfe 0%, #00f2fe 100%); \x7d
        .keyword-legend-dot.normal \x7b background: rgba(102, 126, 234, 0.3); \x7d
        
        .keyword-hint \x7b
            text-align: center;
            margin-top: 12px;
            padding-top: 12px;
            border-top: 1px dashed rgba(102, 126, 234, 0.2);
        \x7d
        .keyword-hint .badge \x7b
            display: inline-block;
            background: linear-gradient(135deg, #667eea 0%, #764ba2 100%);
            color: white;
            padding: 4px 12px;
            border-radius: 15px;
            font-size: 0.75rem;
            font-weight: 600;
            margin-right: 8px;
        \x7d
        .keyword-hint .text \x7b
            color: #888;
            font-size: 0.85rem;
        \x7d
        
        @media (max-width: 768px) \x7b
            .header h1 \x7b font-size: 1.8rem; \x7d
            .image-grid \x7b grid-template-columns: 1fr; \x7d
            th, td \x7b padding: 10px 5px; font-size: 0.9rem; \x7d
            .kw-hot \x7b font-size: 1.3rem; padding: 8px 14px; \x7d
            .kw-warm \x7b font-size: 1.15rem; \x7d
            .kw-medium \x7b font-size: 1rem; \x7d
            .kw-normal \x7b font-size: 0.9rem; \x7d
        \x7d
    </style>
</head>
<body>
    <div class=\"container\">
        <div class=\"header\">
            <h1>🔥 HF 热榜日报</h1>
            <p>Hugging Face 热门 AI 技术分析报告</p>
            <div class=\"date-badge\">
                📅 " ++
  date ++
  "   |   🏠 数据来源: Hugging Face Hub
            </div>
        </div>
        
        <div class=\"stats-grid\">
            <div class=\"stat-card\">
                <div class=\"number\">" ++
  len_trending_str ++
  "</div>
                <div class=\"label\">热门模型</div>
            </div>
            <div class=\"stat-card\">
                <div class=\"number\">" ++
  tech_count_str ++
  "</div>
                <div class=\"label\">技术领域</div>
            </div>
            <div class=\"stat-card\">
                <div class=\"number\">" ++
  total_models_str ++
  "+</div>
                <div class=\"label\">分析模型数</div>
            </div>
            <div class=\"stat-card\">
                <div class=\"number\">" ++
  llm_pct_str ++
  "%</div>
                <div class=\"label\">语言模型占比</div>
            </div>
        </div>
        
        <div class=\"card\">
            <h2>📈 今日热榜 Top 10</h2>
            <table>
                <thead>
                    <tr>
                        <th>排名</th>
                        <th>模型名称</th>
                        <th>技术领域</th>
                        <th>下载量</th>
                        <th>点赞数</th>
                        <th>作者</th>
                    </tr>
                </thead>
                <tbody>
                    " ++
  tableRows ++
  "
                </tbody>
            </table>
        </div>
        
        <!-- ========== 新增: 精美技术关键字词云 ========== -->
        <div class=\"card\">
            <h2>🎨 技术热点词云</h2>
            <p style=\"color:#666; font-size:0.9rem; margin-bottom:15px;\">基于热门模型标签实时提取的技术关键字，字体越大表示热度越高</p>
            <div class=\"keyword-cloud-container\">
                " ++
  keywordCloudHtml ++
  "
            </div>
            <div class=\"keyword-legend\">
                <div class=\"keyword-legend-item\"><span class=\"keyword-legend-dot hot\"></span> 超热门</div>
                <div class=\"keyword-legend-item\"><span class=\"keyword-legend-dot warm\"></span> 热门</div>
                <div class=\"keyword-legend-item\"><span class=\"keyword-legend-dot medium\"></span> 上升中</div>
                <div class=\"keyword-legend-item\"><span class=\"keyword-legend-dot normal\"></span> 稳定</div>
            </div>
            <div class=\"keyword-hint\">
                <span class=\"badge\">✨ 可点击</span>
                <span class=\"text\">点击任意标签，即可跳转至 Hugging Face 查看相关模型</span>
            </div>
        </div>
        
        <!-- 原有词云图片 (保留兼容) -->
        <div class=\"card\" style=\"display:none;\">
            <h2>🎨 技术词云 (图片版)</h2>
            <img src=\"wordcloud_" ++
  date ++
  ".png\" alt=\"技术词云\" class=\"zoomable\" data-title=\"Hugging Face 技术词云 - " ++
  date ++
  "\" style=\"width: 100%; border-radius: 8px; cursor: pointer;\" onerror=\"this.parentElement.style.display=\x27none\x27\">
            <div class=\"tag-cloud\">
                <p style=\"color:#666; font-size:0.9rem; margin-bottom:10px;\">👇 点击下方标签可直接跳转至 HF 对应领域</p>
                " ++
  tagCloudHtml ++
  "
            </div>
            <p class=\"click-hint\">👆 点击图片可放大查看</p>
        </div>
        
        <div class=\"image-grid\">
            <div class=\"image-card\">
                <h3>📊 Top Models Leaderboard</h3>
                <img src=\"leaderboard_" ++
  date ++
  ".png\" alt=\"排行榜\" class=\"zoomable\" data-title=\"Top Models Leaderboard - " ++
  date ++
  "\" onerror=\"this.parentElement.style.display=\x27none\x27\">
                <p class=\"click-hint\">👆 点击图片可放大查看</p>
            </div>
            <div class=\"image-card\">
                <h3>📈 Tech Distribution</h3>
                <img src=\"tech_distribution_" ++
  date ++
  ".png\" alt=\"技术分布\" class=\"zoomable\" data-title=\"Tech Distribution - " ++
  date ++
  "\" onerror=\"this.parentElement.style.display=\x27none\x27\">
                <p class=\"click-hint\">👆 点击图片可放大查看</p>
            </div>
        </div>
        
        <div class=\"image-grid\">
            <div class=\"image-card\">
                <h3>🔵 Model Popularity Bubble Chart</h3>
                <img src=\"bubble_chart_" ++
  date ++
  ".png\" alt=\"气泡图\" class=\"zoomable\" data-title=\"Model Popularity Bubble Chart - " ++
  date ++
  "\" onerror=\"this.parentElement.style.display=\x27none\x27\">
                <p class=\"click-hint\">👆 点击图片可放大查看</p>
            </div>
            <div class=\"image-card\">
                <h3>🏙 Active Organizations Ranking</h3>
                <img src=\"org_ranking_" ++
  date ++
  ".png\" alt=\"组织排行\" class=\"zoomable\" data-title=\"Active Organizations Ranking - " ++
  date ++
  "\" onerror=\"this.parentElement.style.display=\x27none\x27\">
                <p class=\"click-hint\">👆 点击图片可放大查看</p>
            </div>
        </div>
        
        <div class=\"card\">
            <h2>📈 技术领域趋势分析</h2>
            <img src=\"trend_chart_" ++
  date ++
  ".png\" alt=\"技术趋势\" class=\"zoomable\" data-title=\"Tech Trends - " ++
  date ++
  "\" style=\"width: 100%; border-radius: 8px; cursor: pointer;\" onerror=\"this.parentElement.style.display=\x27none\x27\">
            <p class=\"click-hint\">👆 点击图片可放大查看</p>
        </div>
        
        <div class=\"trends\">
            <h2>📝 技术趋势观察</h2>
            <ul>
                <li>🚀 <strong>语言模型 (LLM)</strong>仍是最热门的技术方向，但多模态模型增长迅速</li>
                <li>🎙️ <strong>语音技术</strong>(TTS/ASR) 近期热度上升，多个新模型上榜</li>
                <li>🎈 <strong>图像生成</strong>领域持续活跃，Diffusion 模型占据主导地位</li>
                <li>📄 <strong>OCR/文档理解</strong>成为新的增长点，DeepSeek-OCR 等模型表现亮眼</li>
            </ul>
        </div>
        
        <div class=\"card\">
            <h2>📂 历史数据归档</h2>
            <p>本系统每日自动生成报告并保存数据。下方是最近 7 天的报告归档。</p>
            <div style=\"margin-top: 15px;\">
                <ul style=\"list-style: none; padding: 0;\">
                    " ++
  archiveLinks ++
  "
                </ul>
            </div>
        </div>
        
        <div class=\"footer\">
            <p>本报告由 Hugging Face 热门技术分析系统自动生成</p>
            <p>每日早上 9:00 自动更新</p>
        </div>
    </div>
    
    <div id=\"imageModal\" class=\"modal\" onclick=\"closeModal()\">
        <span class=\"modal-close\" onclick=\"closeModal()\">&times;</span>
        <img class=\"modal-content\" id=\"modalImage\">
        <div class=\"modal-title\" id=\"modalTitle\"></div>
    </div>
    
    <script>
        document.querySelectorAll(\x27.zoomable\x27).forEach(function(img) \x7b
            img.addEventListener(\x27click\x27, function() \x7b
                var modal = document.getElementById(\x27imageModal\x27);
                var modalImg = document.getElementById(\x27modalImage\x27);
                var modalTitle = document.getElementById(\x27modalTitle\x27);
                modal.style.display = \x27block\x27;
                modalImg.src = this.src;
                modalTitle.textContent = this.getAttribute(\x27data-title\x27) || this.alt;
            \x7d);
        \x7d);
        function closeModal() \x7b
            document.getElementById(\x27imageModal\x27).style.display = \x27none\x27;
        \x7d
        document.addEventListener(\x27keydown\x27, function(e) \x7b
            if (e.key === \x27Escape\x27) \x7b
                closeModal();
            \x7d
        \x7d);
    </script>
</body>
</html>
"

/-- `generate_html` from generate_html.py as a function of the snapshot,
the working-directory listing (`os.listdir`) and the current date
(`datetime.now().strftime("%Y-%m-%d")`, used only when the snapshot lacks
a `date`).  Returns the produced HTML string (the file write is the only
other effect). -/
def generate_html (data : Snapshot) (dir_files : List String)
    (now_date : String) : String :=
  let date := data.date.getD now_date
  let trending := data.trending_models.take 10
  let tech_dist := data.tech_distribution
  let total_models := data.trending_models.length +
    data.most_downloaded.length + data.most_liked.length
  let tech_count := tech_dist.length
  html_template date (toString trending.length) (toString tech_count)
    (toString total_models) (pct0_str (llm_pct tech_dist))
    (table_rows trending) (generate_keyword_cloud_html data.tech_keywords)
    (tag_cloud_html tech_dist) (archive_links dir_files)

/-- C5 (amended): the report renderer is a pure function of the snapshot
*and* the working-directory listing; the current date is consulted only
when the snapshot lacks a `date` field.  In particular, for a snapshot
carrying a date, the output is byte-identical across invocations at
different times as long as the directory listing is unchanged. -/
theorem generate_html_date_deterministic (data : Snapshot)
    (dir_files : List String) (d : String) (now1 now2 : String)
    (h : data.date = some d) :
    generate_html data dir_files now1 = generate_html data dir_files now2 := by
  simp only [generate_html, h, Option.getD_some]

/-- A snapshot with a date and no records. -/
def sample_snapshot : Snapshot := { date := some "2025-06-06" }

/-- C5 counterexample: two invocations on the identical snapshot produce
different HTML when the directory holds different archive files — the
renderer reads `os.listdir`, so it is not a pure function of the snapshot. -/
theorem generate_html_depends_on_directory_cex :
    generate_html sample_snapshot [] "2025-06-06" ≠
      generate_html sample_snapshot ["hf_data_2025-01-01.json"] "2025-06-06" := by
  intro heq
  have h1 : archive_links [] =
      "<li style=\"padding: 8px 0; color: #999;\">暂无历史数据</li>" := by
    simp only [archive_links, List.filter_nil, List.mergeSort_nil]
    decide
  have h2 : archive_links ["hf_data_2025-01-01.json"] =
      archive_link_li "2025-01-01" := by
    have hf : (["hf_data_2025-01-01.json"].filter (fun f =>
        py_startswith f "hf_data_" && py_endswith f ".json")) =
        ["hf_data_2025-01-01.json"] := by decide
    simp only [archive_links]
    rw [hf, List.mergeSort_singleton]
    decide
  have hl := congrArg String.length heq
  simp only [generate_html, html_template, String.length_append, h1, h2] at hl
  have hne : ("<li style=\"padding: 8px 0; color: #999;\">暂无历史数据</li>").length ≠
      (archive_link_li "2025-01-01").length := by decide
  omega

/-- Witness for the amended C5 determinism at a concrete snapshot. -/
theorem generate_html_date_deterministic_witness :
    generate_html sample_snapshot [] "2025-01-01" =
      generate_html sample_snapshot [] "2025-12-31" :=
  generate_html_date_deterministic sample_snapshot [] "2025-06-06"
    "2025-01-01" "2025-12-31" rfl

/-- Witness for C7 at a concrete parameter count. -/
theorem size_category_witness :
    get_size_category (some 5000000000) = "小型 (1B-7B)" :=
  ((size_category_exclusive_exhaustive.2.2 5000000000).2.1).mpr (by decide)

/-- Witness for C4 at a concrete download count. -/
theorem downloads_str_witness :
    (downloads_str 999).data.getLast? = some 'K' :=
  ((downloads_str_suffix_boundary.1 999).1).mpr (by decide)

/-- Witness for C10 at the empty mapping. -/
theorem keyword_cloud_witness :
    generate_keyword_cloud_html [] =
      "<p style=\"color:#999; text-align:center;\">暂无技术关键字数据</p>" :=
  (keyword_cloud_spec []).2.2.mpr rfl
